import Mathlib

/-!
# Verification of the pic-js wire codec, transport client and session client

Shallow embedding of `packages/pic/src/pocket-ic-client-types.ts`,
`packages/pic/src/http2-client.ts` and `packages/pic/src/pocket-ic-client.ts`.
JavaScript numbers are modelled as `Nat`/`Int`/`Rat` (exact arithmetic; the
claims settled here only evaluate the numeric code at points where IEEE-754
double arithmetic is exact), byte blobs as `List (Fin 256)`, thrown
exceptions as `Except`, and the HTTP server as an explicit environment
(oracle) supplying the response to each request the client issues.
-/

namespace PicJs

/-- A single byte, as stored in a `Uint8Array`. -/
abbrev Byte := Fin 256

/-- A principal-like binary identifier (`Principal` from `@dfinity/principal`),
represented by its raw byte sequence. -/
abbrev Principal := List Byte

/-! ## Base64 codec

Modelled from the spec: `base64Encode` / `base64Decode` /
`base64EncodePrincipal` / `base64DecodePrincipal` live in `util.ts`, which is
not part of the sources; the spec states that binary blobs and principal-like
identifiers are base64-encoded strings whose decoding recovers the exact byte
sequence and fails on ill-formed input.  We embed standard (RFC 4648) base64
with `=` padding. -/

/-- The standard base64 alphabet. -/
def b64Alphabet : List Char :=
  "ABCDEFGHIJKLMNOPQRSTUVWXYZabcdefghijklmnopqrstuvwxyz0123456789+/".data

/-- The character encoding a six-bit group. -/
def sextetToChar (s : Fin 64) : Char := b64Alphabet.getD s.val 'A'

/-- The six-bit group encoded by a character, if any. -/
def charToSextet (c : Char) : Option (Fin 64) :=
  match b64Alphabet.indexOf? c with
  | some i =>
    if hi : i < 64 then some ⟨i, hi⟩ else none
  | none => none

/-- Encode one full three-byte group as four base64 characters. -/
def encodeGroup3 (b0 b1 b2 : Byte) : List Char :=
  [sextetToChar ⟨b0.val / 4, by have := b0.isLt; omega⟩,
   sextetToChar ⟨b0.val % 4 * 16 + b1.val / 16, by have := b0.isLt; have := b1.isLt; omega⟩,
   sextetToChar ⟨b1.val % 16 * 4 + b2.val / 64, by have := b1.isLt; have := b2.isLt; omega⟩,
   sextetToChar ⟨b2.val % 64, by have := b2.isLt; omega⟩]

/-- Decode four base64 sextets into three bytes. -/
def decodeGroup3 (s0 s1 s2 s3 : Fin 64) : List Byte :=
  [⟨s0.val * 4 + s1.val / 16, by have := s0.isLt; have := s1.isLt; omega⟩,
   ⟨s1.val % 16 * 16 + s2.val / 4, by have := s1.isLt; have := s2.isLt; omega⟩,
   ⟨s2.val % 4 * 64 + s3.val, by have := s2.isLt; have := s3.isLt; omega⟩]

/-- Base64-encode a byte list (with `=` padding). -/
def b64EncodeList : List Byte → List Char
  | [] => []
  | [b0] =>
    [sextetToChar ⟨b0.val / 4, by have := b0.isLt; omega⟩,
     sextetToChar ⟨b0.val % 4 * 16, by have := b0.isLt; omega⟩,
     '=', '=']
  | [b0, b1] =>
    [sextetToChar ⟨b0.val / 4, by have := b0.isLt; omega⟩,
     sextetToChar ⟨b0.val % 4 * 16 + b1.val / 16, by have := b0.isLt; have := b1.isLt; omega⟩,
     sextetToChar ⟨b1.val % 16 * 4, by have := b1.isLt; omega⟩,
     '=']
  | b0 :: b1 :: b2 :: rest => encodeGroup3 b0 b1 b2 ++ b64EncodeList rest

/-- Base64-decode a character list; `none` on ill-formed input. -/
def b64DecodeList : List Char → Option (List Byte)
  | [] => some []
  | c0 :: c1 :: c2 :: c3 :: rest =>
    if c2 = '=' ∧ c3 = '=' ∧ rest = [] then do
      let s0 ← charToSextet c0
      let s1 ← charToSextet c1
      pure [⟨s0.val * 4 + s1.val / 16, by have := s0.isLt; have := s1.isLt; omega⟩]
    else if c3 = '=' ∧ rest = [] then do
      let s0 ← charToSextet c0
      let s1 ← charToSextet c1
      let s2 ← charToSextet c2
      pure [⟨s0.val * 4 + s1.val / 16, by have := s0.isLt; have := s1.isLt; omega⟩,
            ⟨s1.val % 16 * 16 + s2.val / 4, by have := s1.isLt; have := s2.isLt; omega⟩]
    else do
      let s0 ← charToSextet c0
      let s1 ← charToSextet c1
      let s2 ← charToSextet c2
      let s3 ← charToSextet c3
      let tail ← b64DecodeList rest
      pure (decodeGroup3 s0 s1 s2 s3 ++ tail)
  | _ => none

/-- Modelled from the spec: `base64Encode` from the missing `util.ts`. -/
def base64Encode (bytes : List Byte) : String := ⟨b64EncodeList bytes⟩

/-- Modelled from the spec: `base64Decode` from the missing `util.ts`;
`none` models the parse error thrown on ill-formed input. -/
def base64Decode (s : String) : Option (List Byte) := b64DecodeList s.data

/-- Modelled from the spec: `base64EncodePrincipal` from the missing `util.ts`. -/
def base64EncodePrincipal (p : Principal) : String := base64Encode p

/-- Modelled from the spec: `base64DecodePrincipal` from the missing `util.ts`. -/
def base64DecodePrincipal (s : String) : Option Principal := base64Decode s

/-! ## Effective principal codec
(`pocket-ic-client-types.ts`, `encodeEffectivePrincipal` / `decodeEffectivePrincipal`) -/

/-- The `EffectivePrincipal` union type: `{subnetId} | {canisterId}`. -/
inductive EffectivePrincipal
  | subnetId (p : Principal)
  | canisterId (p : Principal)
deriving DecidableEq, Repr

/-- The `EncodedEffectivePrincipal` wire type: `{SubnetId} | {CanisterId} | 'None'`. -/
inductive EncodedEffectivePrincipal
  | NoneTag
  | SubnetId (s : String)
  | CanisterId (s : String)
deriving DecidableEq, Repr

/-- `encodeEffectivePrincipal`: `nil` maps to the `'None'` tag, a subnet id to
`{SubnetId: base64}`, a canister id to `{CanisterId: base64}`. -/
def encodeEffectivePrincipal : Option EffectivePrincipal → EncodedEffectivePrincipal
  | none => .NoneTag
  | some (.subnetId p) => .SubnetId (base64EncodePrincipal p)
  | some (.canisterId p) => .CanisterId (base64EncodePrincipal p)

/-- `decodeEffectivePrincipal`: `'None'` maps to `null`, the tagged variants
decode their base64 principal.  The outer `Option` models the parse error
thrown on ill-formed base64. -/
def decodeEffectivePrincipal :
    EncodedEffectivePrincipal → Option (Option EffectivePrincipal)
  | .NoneTag => some none
  | .SubnetId s => (base64DecodePrincipal s).map (fun p => some (.subnetId p))
  | .CanisterId s => (base64DecodePrincipal s).map (fun p => some (.canisterId p))

/-! ## Time codec (`decodeGetTimeResponse` / `encodeSetTimeRequest`)

JavaScript numbers are modelled as `Rat`: at the arguments the settled claims
evaluate these functions on (integers below 2^53 and exact binary fractions),
IEEE-754 double arithmetic agrees with exact rational arithmetic. -/

/-- The `GetTimeResponse` value type. -/
structure GetTimeResponse where
  millisSinceEpoch : ℚ
deriving DecidableEq, Repr

/-- The `EncodedGetTimeResponse` wire type. -/
structure EncodedGetTimeResponse where
  nanos_since_epoch : ℚ
deriving DecidableEq, Repr

/-- The `SetTimeRequest` value type. -/
structure SetTimeRequest where
  millisSinceEpoch : ℚ
deriving DecidableEq, Repr

/-- The `EncodedSetTimeRequest` wire type. -/
structure EncodedSetTimeRequest where
  nanos_since_epoch : ℚ
deriving DecidableEq, Repr

/-- `decodeGetTimeResponse`: divides the nanosecond count by `1_000_000`. -/
def decodeGetTimeResponse (res : EncodedGetTimeResponse) : GetTimeResponse :=
  ⟨res.nanos_since_epoch / 1000000⟩

/-- `encodeSetTimeRequest`: multiplies the millisecond count by `1_000_000`. -/
def encodeSetTimeRequest (req : SetTimeRequest) : EncodedSetTimeRequest :=
  ⟨req.millisSinceEpoch * 1000000⟩

/-! ## CreateInstance request encoding (`encodeCreateInstanceRequest`) -/

/-- A subnet state configuration: `{type: 'new'}` or `{type: 'fromPath', path}`. -/
inductive SubnetStateConfig
  | new
  | fromPath (path : String)
deriving DecidableEq, Repr

/-- The `SubnetConfig` interface. -/
structure SubnetConfig where
  enableDeterministicTimeSlicing : Option Bool
  enableBenchmarkingInstructionLimits : Option Bool
  state : SubnetStateConfig
deriving DecidableEq, Repr

/-- The `CreateInstanceRequest` interface (all fields optional). -/
structure CreateInstanceRequest where
  nns : Option SubnetConfig
  sns : Option SubnetConfig
  ii : Option SubnetConfig
  fiduciary : Option SubnetConfig
  bitcoin : Option SubnetConfig
  system : Option (List SubnetConfig)
  application : Option (List SubnetConfig)
  verifiedApplication : Option (List SubnetConfig)
  processingTimeoutMs : Option Nat
  nonmainnetFeatures : Option Bool
deriving DecidableEq, Repr

/-- The `dts_flag` wire field. -/
inductive EncodedDtsFlag
  | Enabled
  | Disabled
deriving DecidableEq, Repr

/-- The `instruction_config` wire field. -/
inductive EncodedInstructionConfig
  | Production
  | Benchmarking
deriving DecidableEq, Repr

/-- The `state_config` wire field: `'New' | {FromPath: string}`. -/
inductive EncodedStateConfig
  | New
  | FromPath (path : String)
deriving DecidableEq, Repr

/-- The `EncodedSubnetConfig` wire type. -/
structure EncodedSubnetConfig where
  dts_flag : EncodedDtsFlag
  instruction_config : EncodedInstructionConfig
  state_config : EncodedStateConfig
deriving DecidableEq, Repr

/-- The `subnet_config_set` wire object. -/
structure EncodedCreateInstanceSubnetConfig where
  nns : Option EncodedSubnetConfig
  sns : Option EncodedSubnetConfig
  ii : Option EncodedSubnetConfig
  fiduciary : Option EncodedSubnetConfig
  bitcoin : Option EncodedSubnetConfig
  system : List EncodedSubnetConfig
  application : List EncodedSubnetConfig
  verified_application : List EncodedSubnetConfig
deriving DecidableEq, Repr

/-- The `EncodedCreateInstanceRequest` wire type. -/
structure EncodedCreateInstanceRequest where
  subnet_config_set : EncodedCreateInstanceSubnetConfig
  nonmainnet_features : Bool
deriving DecidableEq, Repr

/-- The `TopologyValidationError` thrown on an empty topology. -/
inductive TopologyValidationError
  | mk
deriving DecidableEq, Repr

/-- `encodeDtsFlag`: `'Disabled'` only when the flag is explicitly `false`. -/
def encodeDtsFlag : Option Bool → EncodedDtsFlag
  | some false => .Disabled
  | _ => .Enabled

/-- `encodeInstructionConfig`: `'Benchmarking'` only when explicitly `true`. -/
def encodeInstructionConfig : Option Bool → EncodedInstructionConfig
  | some true => .Benchmarking
  | _ => .Production

/-- `encodeSubnetConfig`: `undefined` stays `undefined`; otherwise the state
type selects the `state_config` variant. -/
def encodeSubnetConfig : Option SubnetConfig → Option EncodedSubnetConfig
  | none => none
  | some c =>
    match c.state with
    | .new =>
      some ⟨encodeDtsFlag c.enableDeterministicTimeSlicing,
            encodeInstructionConfig c.enableBenchmarkingInstructionLimits, .New⟩
    | .fromPath p =>
      some ⟨encodeDtsFlag c.enableDeterministicTimeSlicing,
            encodeInstructionConfig c.enableBenchmarkingInstructionLimits, .FromPath p⟩

/-- `encodeManySubnetConfigs`: encode each config and drop the `nil` results. -/
def encodeManySubnetConfigs (configs : List SubnetConfig) : List EncodedSubnetConfig :=
  configs.filterMap (fun c => encodeSubnetConfig (some c))

/-- The default application subnet inserted by `encodeCreateInstanceRequest`. -/
def defaultApplicationSubnet : SubnetConfig := ⟨none, none, .new⟩

/-- `encodeCreateInstanceRequest`: defaults a missing request to one new
application subnet, encodes every subnet kind, and throws
`TopologyValidationError` when no `nns`/`sns`/`ii`/`fiduciary`/`bitcoin`
subnet is present and the encoded `system` and `application` lists are empty
(`verified_application` is not consulted by the check). -/
def encodeCreateInstanceRequest (req : Option CreateInstanceRequest) :
    Except TopologyValidationError EncodedCreateInstanceRequest :=
  let defaultOptions : CreateInstanceRequest :=
    req.getD ⟨none, none, none, none, none, none, some [defaultApplicationSubnet],
      none, none, none⟩
  let options : EncodedCreateInstanceRequest :=
    ⟨⟨encodeSubnetConfig defaultOptions.nns,
      encodeSubnetConfig defaultOptions.sns,
      encodeSubnetConfig defaultOptions.ii,
      encodeSubnetConfig defaultOptions.fiduciary,
      encodeSubnetConfig defaultOptions.bitcoin,
      encodeManySubnetConfigs (defaultOptions.system.getD []),
      encodeManySubnetConfigs (defaultOptions.application.getD [defaultApplicationSubnet]),
      encodeManySubnetConfigs (defaultOptions.verifiedApplication.getD [])⟩,
     defaultOptions.nonmainnetFeatures.getD false⟩
  if (options.subnet_config_set.nns.isNone ∧
      options.subnet_config_set.sns.isNone ∧
      options.subnet_config_set.ii.isNone ∧
      options.subnet_config_set.fiduciary.isNone ∧
      options.subnet_config_set.bitcoin.isNone ∧
      options.subnet_config_set.system.length = 0 ∧
      options.subnet_config_set.application.length = 0) ∨
     options.subnet_config_set.system.length < 0 ∨
     options.subnet_config_set.application.length < 0 then
    .error .mk
  else
    .ok options

/-- A `CreateInstanceRequest` with every field absent. -/
def emptyCreateInstanceRequest : CreateInstanceRequest :=
  ⟨none, none, none, none, none, none, none, none, none, none⟩

/-! ## Canister-call result decoding (`decodeResultResponse` and the trap
message formatter)

The formatter rewrites trap-shaped rejection messages into a colored compact
line.  JavaScript float arithmetic in the HSL-to-RGB conversion is modelled
over `Rat`; `Math.round` rounds half toward positive infinity. -/

/-- The apostrophe character (written via its code point). -/
def squote : Char := Char.ofNat 39

/-- Lower-case a string character-wise (models case-insensitive regex tests
on the ASCII strings involved). -/
def toLowerStr (s : String) : String := ⟨s.data.map Char.toLower⟩

/-- Split a character list at every occurrence of a separator character
(JavaScript `split` with a one-character separator). -/
def splitOnChar (sep : Char) : List Char → List (List Char)
  | [] => [[]]
  | c :: rest =>
    if c = sep then [] :: splitOnChar sep rest
    else
      match splitOnChar sep rest with
      | [] => [[c]]
      | h :: t => (c :: h) :: t

/-- Interleave a separator character between the pieces (JavaScript `join`). -/
def intercalateChar (sep : Char) : List (List Char) → List Char
  | [] => []
  | [l] => l
  | l :: rest => l ++ sep :: intercalateChar sep rest

/-- Prefix test on strings (JavaScript regex `^...` / `startsWith`). -/
def startsWithStr (s pre : String) : Bool := pre.data.isPrefixOf s.data

/-- Whitespace-trim both ends of a string (JavaScript `trim`). -/
def trimStr (s : String) : String :=
  ⟨((s.data.dropWhile Char.isWhitespace).reverse.dropWhile Char.isWhitespace).reverse⟩

/-- Drop one `\r` from the end of every piece except the last: together with
splitting on `\n` this implements `String.split(/\r?\n/)`. -/
def stripCr : List String → List String
  | [] => []
  | [l] => [l]
  | l :: rest =>
    (if l.data.getLast? = some (Char.ofNat 13) then ⟨l.data.dropLast⟩ else l) :: stripCr rest

/-- `message.split(/\r?\n/)`. -/
def splitLines (m : String) : List String :=
  stripCr ((splitOnChar (Char.ofNat 10) m.data).map fun l => ⟨l⟩)

/-- Consume a literal character sequence from the front, returning the rest. -/
def dropLit : List Char → List Char → Option (List Char)
  | [], s => some s
  | _ :: _, [] => none
  | p :: ps, c :: cs => if c = p then dropLit ps cs else none

/-- The capture `\s+([^:]+)` applied to the segment before the first `:`:
the segment must start with whitespace; the capture is the segment minus its
maximal leading whitespace run (or, when the segment is all whitespace of
length at least two, its final character). -/
def trapCapture1 (seg : List Char) : Option (List Char) :=
  match seg with
  | [] => none
  | w :: _ =>
    if w.isWhitespace then
      let cap := seg.dropWhile Char.isWhitespace
      if cap.isEmpty then
        match seg.getLast? with
        | some c => if 2 ≤ seg.length then some [c] else none
        | none => none
      else some cap
    else none

/-- The literal head of the trap regex. -/
def trapPrefix : String := "Canister call failed: Error from Canister"

/-- The literal middle of the trap regex, ending in an apostrophe. -/
def trapLiteral2 : List Char :=
  "Canister called `ic0.trap` with message: ".data ++ [squote]

/-- Execute the trap-detection regex
`^Canister call failed: Error from Canister\s+([^:]+):\s+Canister called`
`` `ic0.trap` `` `with message: '([^']*)'` against the first line, returning
the two captures (principal text, trap message). -/
def execTrapRegex (first : String) : Option (String × String) :=
  match dropLit trapPrefix.data first.data with
  | none => none
  | some rest =>
    let seg := rest.takeWhile (fun c => c ≠ ':')
    match trapCapture1 seg, rest.drop seg.length with
    | some cap1, ':' :: rest2 =>
      let ws2 := rest2.takeWhile Char.isWhitespace
      if ws2.isEmpty then none
      else
        match dropLit trapLiteral2 (rest2.drop ws2.length) with
        | none => none
        | some rest3 =>
          let cap2 := rest3.takeWhile (fun c => c ≠ squote)
          match rest3.drop cap2.length with
          | c :: _ => if c = squote then some (⟨cap1⟩, ⟨cap2⟩) else none
          | [] => none
    | _, _ => none

/-- `shortenPrincipal`: keep the first two dash-separated groups. -/
def shortenPrincipal (p : String) : String :=
  ⟨intercalateChar '-' ((splitOnChar '-' p.data).take 2)⟩

/-- The 32-bit string hash `h = (h * 31 + charCode) >>> 0` from `pickColor`. -/
def picColorHash (seed : String) : Nat :=
  seed.data.foldl (fun h c => (h * 31 + c.toNat) % 4294967296) 0

/-- Floor of a rational, computed by flooring integer division (kept
executable so the kernel can evaluate concrete colors). -/
def ratFloor (q : ℚ) : ℤ := Int.fdiv q.num q.den

/-- JavaScript `Math.round`: round half toward positive infinity. -/
def jsRound (x : ℚ) : ℤ := ratFloor (x + 1 / 2)

/-- `hslToRgb`, over exact rationals; `%` on the nonnegative float `h / 60`
is `q - 2 * ⌊q / 2⌋`. -/
def hslToRgb (h : Nat) (s l : Nat) : ℤ × ℤ × ℤ :=
  let ss : ℚ := (s : ℚ) / 100
  let ll : ℚ := (l : ℚ) / 100
  let c : ℚ := (1 - |2 * ll - 1|) * ss
  let q : ℚ := (h : ℚ) / 60
  let qmod : ℚ := q - 2 * (ratFloor (q / 2) : ℚ)
  let x : ℚ := c * (1 - |qmod - 1|)
  let m : ℚ := ll - c / 2
  let rgb : ℚ × ℚ × ℚ :=
    if h < 60 then (c, x, 0)
    else if h < 120 then (x, c, 0)
    else if h < 180 then (0, c, x)
    else if h < 240 then (0, x, c)
    else if h < 300 then (x, 0, c)
    else (c, 0, x)
  (jsRound ((rgb.1 + m) * 255), jsRound ((rgb.2.1 + m) * 255), jsRound ((rgb.2.2 + m) * 255))

/-- `pickColor` (the per-process color cache is transparent to the result). -/
def pickColor (seed : String) : ℤ × ℤ × ℤ :=
  hslToRgb (picColorHash seed % 360) 70 55

/-- The ANSI reset sequence. -/
def ansiReset : String := "\u001B[0m"

/-- The mojibake square glyph from the source (`U+201A U+00F1 U+2020`). -/
def squareStr : String := "‚ñ†"

/-- The mojibake bug glyph from the source (`U+F8FF U+00FC U+00EA U+00FB`). -/
def bugStr : String := "üêû"

/-- The red foreground escape used for trap lines. -/
def redStart : String := "\u001B[38;2;239;68;68m"

/-- `coloredSquare`: the seed-colored square glyph. -/
def coloredSquare (seed : String) : String :=
  let rgb := pickColor seed
  "\u001B[38;2;" ++ toString rgb.1 ++ ";" ++ toString rgb.2.1 ++ ";" ++
    toString rgb.2.2 ++ "m" ++ squareStr ++ ansiReset

/-- `colorLightRed`. -/
def colorLightRed (s : String) : String :=
  "\u001B[38;2;252;165;165m" ++ s ++ ansiReset

/-- The gray bar prefix used for backtrace lines. -/
def grayBar : String := "\u001B[38;2;107;114;128m|\u001B[0m "

/-- `/^Consider gracefully handling failures/i.test(line)`. -/
def isConsiderGuidance (line : String) : Bool :=
  startsWithStr (toLowerStr line) "consider gracefully handling failures"

/-- The backtrace-colorizing pass over the filtered lines (the boolean is the
`inBacktrace` flag). -/
def colorizeBacktrace : List String → Bool → List String
  | [], _ => []
  | line :: rest, inB =>
    if trimStr line = "Canister Backtrace:" then
      (grayBar ++ colorLightRed line) :: colorizeBacktrace rest true
    else if inB then
      if trimStr line = "" ∨ startsWithStr (toLowerStr line) "consider " then
        line :: colorizeBacktrace rest false
      else
        (grayBar ++ colorLightRed line) :: colorizeBacktrace rest true
    else
      line :: colorizeBacktrace rest false

/-- `formatTrapMessageIfAny`: detect a trap-shaped first line, replace it with
the compact colored trap line, drop guidance lines and colorize the
backtrace; `none` when the message is not trap-shaped. -/
def formatTrapMessageIfAny (message : String) : Option String :=
  match splitLines message with
  | [] => none
  | first :: restLines =>
    match execTrapRegex first with
    | none => none
    | some (fullId, trapMsg) =>
      let shortId := shortenPrincipal fullId
      let replaced := bugStr ++ " " ++ redStart ++ "[" ++ coloredSquare shortId ++
        redStart ++ shortId ++ "] [CALL TRAP]: " ++ trapMsg ++ ansiReset
      let filtered := (replaced :: restLines).filter (fun line => !isConsiderGuidance line)
      some ⟨intercalateChar (Char.ofNat 10) ((colorizeBacktrace filtered false).map String.data)⟩

/-- The `EncodedCanisterCallRejectResponse` wire type. -/
structure EncodedCanisterCallRejectResponse where
  reject_code : Nat
  reject_message : String
  error_code : Nat
  certified : Bool
deriving DecidableEq, Repr

/-- The `EncodedCanisterCallResult<T>` tagged union `{Ok: T} | {Err: ...}`. -/
inductive EncodedCanisterCallResult (T : Type)
  | Ok (v : T)
  | Err (e : EncodedCanisterCallRejectResponse)
deriving DecidableEq, Repr

/-- JavaScript template interpolation of a boolean. -/
def boolToString (b : Bool) : String := if b then "true" else "false"

/-- The `baseMessage` built by `decodeResultResponse` for an `Err` result. -/
def rejectBaseMessage (e : EncodedCanisterCallRejectResponse) : String :=
  "Canister call failed: " ++ e.reject_message ++ ". Reject code: " ++
    toString e.reject_code ++ ". Error code: " ++ toString e.error_code ++
    ". Certified: " ++ boolToString e.certified

/-- `decodeResultResponse`: an `Err` variant throws `new Error(pretty ??`
`baseMessage)` (the error is its message string); an `Ok` variant returns the
contained value. -/
def decodeResultResponse {T : Type} : EncodedCanisterCallResult T → Except String T
  | .Ok v => .ok v
  | .Err e =>
    let baseMessage := rejectBaseMessage e
    .error ((formatTrapMessageIfAny baseMessage).getD baseMessage)

/-- The `CanisterCallResponse` value type. -/
structure CanisterCallResponse where
  body : List Byte
deriving DecidableEq, Repr

/-- `decodeCanisterCallResponse`: unwrap the result, then base64-decode the
body (the decode failure message models the parse error thrown by the missing
`util.ts` `base64Decode`). -/
def decodeCanisterCallResponse (res : EncodedCanisterCallResult String) :
    Except String CanisterCallResponse :=
  match decodeResultResponse res with
  | .error e => .error e
  | .ok okRes =>
    match base64Decode okRes with
    | some bytes => .ok ⟨bytes⟩
    | none => .error "Invalid base64 payload"

/-- Executable substring test on character lists: `sub` is a prefix of some
suffix of `s`. -/
def isInfixB : List Char → List Char → Bool
  | sub, [] => sub.isEmpty
  | sub, c :: rest => sub.isPrefixOf (c :: rest) || isInfixB sub rest

/-- Substring containment, on the underlying character lists. -/
def containsSubstr (s sub : String) : Prop := isInfixB sub.data s.data = true

instance (s sub : String) : Decidable (containsSubstr s sub) :=
  instDecidableEqBool (isInfixB sub.data s.data) true

/-- Extract the message of an `error` result (`""` for `ok`). -/
def exceptErrorStr {α : Type} : Except String α → String
  | .error m => m
  | .ok _ => ""

/-- A trap-shaped rejection: its message matches the trap regex. -/
def trapErrExample : EncodedCanisterCallRejectResponse :=
  ⟨5,
   "Error from Canister lxzze-o7777-77777-aaaaa-cai: Canister called " ++
     "`ic0.trap` with message: " ++ String.singleton squote ++ "oops" ++
     String.singleton squote,
   305, true⟩

/-! ## Tagged-union decoders (`decodeSubnetKind`, `decodeCanisterHttpMethod`,
`decodeIngressStatusResponse`) -/

/-- The `SubnetType` enum. -/
inductive SubnetType
  | Application
  | Bitcoin
  | Fiduciary
  | InternetIdentity
  | NNS
  | SNS
  | System
deriving DecidableEq, Repr

/-- `decodeSubnetKind`: the `switch` over the wire tag; an unknown tag throws. -/
def decodeSubnetKind (kind : String) : Except String SubnetType :=
  if kind = "Application" then .ok .Application
  else if kind = "Bitcoin" then .ok .Bitcoin
  else if kind = "Fiduciary" then .ok .Fiduciary
  else if kind = "II" then .ok .InternetIdentity
  else if kind = "NNS" then .ok .NNS
  else if kind = "SNS" then .ok .SNS
  else if kind = "System" then .ok .System
  else .error ("Unknown subnet kind: " ++ kind)

/-- The `CanisterHttpMethod` enum. -/
inductive CanisterHttpMethod
  | GET
  | POST
  | HEAD
deriving DecidableEq, Repr

/-- `decodeCanisterHttpMethod`: the `switch` over the wire tag; an unknown tag
throws. -/
def decodeCanisterHttpMethod (method : String) : Except String CanisterHttpMethod :=
  if method = "GET" then .ok .GET
  else if method = "POST" then .ok .POST
  else if method = "HEAD" then .ok .HEAD
  else .error ("Unknown canister HTTP method: " ++ method)

/-- The `EncodedIngressStatusResponse` wire value: `null`/`undefined`, an
object carrying an `Ok` or `Err` tag, or an object with some other tag. -/
inductive EncodedIngressStatusResponse
  | nil
  | result (r : EncodedCanisterCallResult String)
  | unknownTag (tag : String)
deriving DecidableEq, Repr

/-- `decodeIngressStatusResponse`: `null` body means no status yet; an
`Ok`/`Err` object is decoded as a call response; anything else throws. -/
def decodeIngressStatusResponse :
    EncodedIngressStatusResponse → Except String (Option CanisterCallResponse)
  | .nil => .ok none
  | .result r => (decodeCanisterCallResponse r).map some
  | .unknownTag tag => .error ("Unexpected ingress status response " ++ tag)

/-! ## Transport client (`http2-client.ts`)

`Http2Client.#handleJsonResponse` and its read-result long-poll loop.  The
HTTP server is an oracle `readGraph : Nat → HttpResponse` giving the answer
to the `k`-th `GET /read_graph/{state_label}/{op_id}`; every request is
assumed to complete promptly (so the per-request timeout race of
`Http2Client.request` never fires).  The `while (true)` loop and the
recursion are indexed by fuel: a `none` result means the computation has not
terminated within that many iterations, for any fuel. -/

/-- A parsed JSON response body: a valid `{state_label, op_id}` object (the
shape accepted by `guard`), an object with a `message` field, any other JSON
payload, or a body `res.json()` fails to parse. -/
inductive JsonBody
  | startedOrBusy (state_label op_id : String)
  | withMessage (message : String)
  | payload (tag : String)
  | invalid
deriving DecidableEq, Repr

/-- An HTTP response: status code and parsed body. -/
structure HttpResponse where
  status : Nat
  body : JsonBody
deriving DecidableEq, Repr

/-- The `HttpStatus` enum after `#simplifyStatus`. -/
inductive HttpStatusM
  | OK
  | ACCEPTED
  | CONFLICT
  | OTHER
deriving DecidableEq, Repr

/-- `#simplifyStatus`: 202 and 404 collapse to `ACCEPTED`; 200 and 409 map to
themselves; everything else is `OTHER`. -/
def simplifyStatus (status : Nat) : HttpStatusM :=
  if status = 202 ∨ status = 404 then .ACCEPTED
  else if status = 200 then .OK
  else if status = 409 then .CONFLICT
  else .OTHER

/-- The error classes of `errors.ts` plus plain `new Error(...)` throws. -/
inductive ClientError
  | serverBusy (message : String)
  | serverProcessing (message : String)
  | serverRequestTimeout
  | serverResponse (message : String)
  | unknownState
  | generic (message : String)
deriving DecidableEq, Repr

/-- The `name` property of each error class. -/
def clientErrorName : ClientError → String
  | .serverBusy _ => "ServerBusyError"
  | .serverProcessing _ => "ServerProcessingError"
  | .serverRequestTimeout => "ServerRequestTimeoutError"
  | .serverResponse _ => "ServerResponseError"
  | .unknownState => "UnknownStateError"
  | .generic _ => "Error"

/-- The `message` property of each error class (`ServerResponseError`
prefixes `Server error: `). -/
def clientErrorMessage : ClientError → String
  | .serverBusy m => m
  | .serverProcessing m => m
  | .serverRequestTimeout => "A request to the PocketIC server timed out."
  | .serverResponse m => "Server error: " ++ m
  | .unknownState => "Server returned an unknown state"
  | .generic m => m

/-- JavaScript `String(e)` applied to an error. -/
def errToString (e : ClientError) : String :=
  clientErrorName e ++ ": " ++ clientErrorMessage e

/-- The error thrown by `guard` / `res.json()` for a body that is not a valid
`{state_label, op_id}` object. -/
def guardFailure : JsonBody → ClientError
  | .startedOrBusy _ _ => .generic "unreachable"
  | .withMessage _ => .generic "Value does not have state_label or op_id"
  | .payload _ => .generic "Value does not have state_label or op_id"
  | .invalid => .generic "Unexpected token in JSON"

/-- The `message` field of a parsed body, if any. -/
def bodyMessageField : JsonBody → Option String
  | .withMessage m => some m
  | _ => none

mutual

/-- `Http2Client.#handleJsonResponse` (the revision in
`src/packages/pic/src/http2-client.ts`).  Each `try { ... } catch (e) {`
`throw new ServerResponseError(...) }` block is modelled by wrapping every
error produced inside the `try` body. -/
def handleJsonResponse (readGraph : Nat → HttpResponse) (fuel k : Nat)
    (res : HttpResponse) : Option (Except ClientError JsonBody) :=
  match simplifyStatus res.status with
  | .OK =>
    match res.body with
    | .invalid =>
      some (.error (.serverResponse
        ("Could not parse response: " ++ errToString (guardFailure .invalid))))
    | b => some (.ok b)
  | .ACCEPTED =>
    let inner : Option (Except ClientError JsonBody) :=
      match res.body with
      | .startedOrBusy _ _ => readGraphLoop readGraph fuel k
      | b => some (.error (guardFailure b))
    match inner with
    | none => none
    | some (.ok v) => some (.ok v)
    | some (.error e) =>
      some (.error (.serverResponse ("Could not parse response: " ++ errToString e)))
  | .CONFLICT =>
    let inner : Except ClientError JsonBody :=
      match res.body with
      | .startedOrBusy _ _ => .error (.serverBusy "Server busy")
      | b => .error (guardFailure b)
    match inner with
    | .ok v => some (.ok v)
    | .error e =>
      some (.error (.serverResponse ("Could not parse response: " ++ errToString e)))
  | .OTHER =>
    let inner : Except ClientError JsonBody :=
      match res.body with
      | .invalid => .error (guardFailure .invalid)
      | b => .error (.serverResponse ((bodyMessageField b).getD "undefined"))
    match inner with
    | .ok v => some (.ok v)
    | .error e =>
      some (.error (.serverResponse ("Could not parse error: " ++ errToString e)))
termination_by (fuel, 1)

/-- The `while (true)` read-result loop of the `ACCEPTED` branch: sleep, GET
`/read_graph/{state_label}/{op_id}`, `continue` on a 404, otherwise recurse
into `#handleJsonResponse` on the polled response.  There is no bound other
than the fuel. -/
def readGraphLoop (readGraph : Nat → HttpResponse) (fuel k : Nat) :
    Option (Except ClientError JsonBody) :=
  match fuel with
  | 0 => none
  | fuel' + 1 =>
    let stateRes := readGraph k
    if stateRes.status = 404 then readGraphLoop readGraph fuel' (k + 1)
    else handleJsonResponse readGraph fuel' (k + 1) stateRes
termination_by (fuel, 0)

end

/-- The `poll` retry wrapper of `util.ts` around one attempt-producing
callback: an attempt that never settles (`none`) leaves `poll` waiting
forever; a successful attempt resolves; a failed attempt is retried until the
elapsed time reaches the timeout or the backoff is exhausted, and then the
last error is rejected. -/
def pollModel {α : Type} (cb : Nat → Option (Except ClientError α))
    (elapsedMs : Nat → Nat) (timeoutMs : Nat) :
    Nat → Nat → Option (Except ClientError α)
  | _, 0 => none
  | n, budget + 1 =>
    match cb n with
    | none => none
    | some (.ok v) => some (.ok v)
    | some (.error e) =>
      if timeoutMs ≤ elapsedMs n then some (.error e)
      else if budget = 0 then some (.error e)
      else pollModel cb elapsedMs timeoutMs (n + 1) budget

/-- An HTTP 409 response whose body is a valid `{state_label, op_id}`
object. -/
def busyResponse : HttpResponse := ⟨409, .startedOrBusy "state0" "op0"⟩

/-- An HTTP 202 response whose body is a valid `{state_label, op_id}`
object. -/
def processingResponse : HttpResponse := ⟨202, .startedOrBusy "state0" "op0"⟩

/-- A server that answers every read-result poll with a 404. -/
def always404 : Nat → HttpResponse := fun _ => ⟨404, .payload "not found"⟩

/-! ## Remaining wire codec pieces used by the session client
(`pocket-ic-client-types.ts`) -/

/-- The `CanisterCallRequest` value type. -/
structure CanisterCallRequest where
  sender : Principal
  canisterId : Principal
  method : String
  payload : List Byte
  effectivePrincipal : Option EffectivePrincipal
deriving DecidableEq, Repr

/-- The `EncodedCanisterCallRequest` wire type. -/
structure EncodedCanisterCallRequest where
  sender : String
  canister_id : String
  method : String
  payload : String
  effective_principal : EncodedEffectivePrincipal
deriving DecidableEq, Repr

/-- `encodeCanisterCallRequest`. -/
def encodeCanisterCallRequest (req : CanisterCallRequest) : EncodedCanisterCallRequest :=
  ⟨base64EncodePrincipal req.sender, base64EncodePrincipal req.canisterId, req.method,
   base64Encode req.payload, encodeEffectivePrincipal req.effectivePrincipal⟩

/-- The `EncodedCanisterCallId` wire type (the `message_id` stays a raw byte
array). -/
structure EncodedCanisterCallId where
  effective_principal : EncodedEffectivePrincipal
  message_id : List Byte
deriving DecidableEq, Repr

/-- The `SubmitCanisterCallResponse` value type (the Pending Call Handle). -/
structure SubmitCanisterCallResponse where
  effectivePrincipal : Option EffectivePrincipal
  messageId : List Byte
deriving DecidableEq, Repr

/-- `decodeSubmitCanisterCallResponse`: unwrap the result, decode the
effective principal. -/
def decodeSubmitCanisterCallResponse
    (res : EncodedCanisterCallResult EncodedCanisterCallId) :
    Except String SubmitCanisterCallResponse :=
  match decodeResultResponse res with
  | .error e => .error e
  | .ok okRes =>
    match decodeEffectivePrincipal okRes.effective_principal with
    | some ep => .ok ⟨ep, okRes.message_id⟩
    | none => .error "Invalid base64 principal"

/-- `encodeAwaitCanisterCallRequest`. -/
def encodeAwaitCanisterCallRequest (req : SubmitCanisterCallResponse) :
    EncodedCanisterCallId :=
  ⟨encodeEffectivePrincipal req.effectivePrincipal, req.messageId⟩

/-- The `IngressStatusRequest` value type. -/
structure IngressStatusRequest where
  messageId : EncodedCanisterCallId
  caller : Option Principal
deriving DecidableEq, Repr

/-- The `EncodedIngressStatusRequest` wire type. -/
structure EncodedIngressStatusRequest where
  raw_message_id : EncodedCanisterCallId
  raw_caller : Option String
deriving DecidableEq, Repr

/-- `encodeIngressStatusRequest`. -/
def encodeIngressStatusRequest (req : IngressStatusRequest) : EncodedIngressStatusRequest :=
  ⟨req.messageId, req.caller.map base64EncodePrincipal⟩

/-- A wire request carrying just a base64 `canister_id` (the shape shared by
`EncodedGetCyclesBalanceRequest` and `EncodedGetStableMemoryRequest`). -/
structure EncodedCanisterIdRequest where
  canister_id : String
deriving DecidableEq, Repr

/-- `encodeGetCyclesBalanceRequest`. -/
def encodeGetCyclesBalanceRequest (canisterId : Principal) : EncodedCanisterIdRequest :=
  ⟨base64EncodePrincipal canisterId⟩

/-- `decodeGetCyclesBalanceResponse` (the `cycles` field is returned as-is). -/
def decodeGetCyclesBalanceResponse (cycles : Nat) : Nat := cycles

/-- The `EncodedAddCyclesRequest` wire type. -/
structure EncodedAddCyclesRequest where
  canister_id : String
  amount : Nat
deriving DecidableEq, Repr

/-- `encodeAddCyclesRequest`. -/
def encodeAddCyclesRequest (canisterId : Principal) (amount : Nat) :
    EncodedAddCyclesRequest :=
  ⟨base64EncodePrincipal canisterId, amount⟩

/-- `decodeAddCyclesResponse`. -/
def decodeAddCyclesResponse (cycles : Nat) : Nat := cycles

/-- `encodeGetStableMemoryRequest`. -/
def encodeGetStableMemoryRequest (canisterId : Principal) : EncodedCanisterIdRequest :=
  ⟨base64EncodePrincipal canisterId⟩

/-- `decodeGetStableMemoryResponse`: base64-decode the blob. -/
def decodeGetStableMemoryResponse (blob : String) : Except String (List Byte) :=
  match base64Decode blob with
  | some bytes => .ok bytes
  | none => .error "Invalid base64 payload"

/-- The `EncodedSetStableMemoryRequest` wire type. -/
structure EncodedSetStableMemoryRequest where
  canister_id : String
  blob_id : String
deriving DecidableEq, Repr

/-- `encodeSetStableMemoryRequest`. -/
def encodeSetStableMemoryRequest (canisterId : Principal) (blobId : List Byte) :
    EncodedSetStableMemoryRequest :=
  ⟨base64EncodePrincipal canisterId, base64Encode blobId⟩

/-- The `EncodedSubnetTopology` wire type (ranges as base64 canister-id
pairs). -/
structure EncodedSubnetTopology where
  subnet_kind : String
  size : Nat
  canister_ranges : List (String × String)
deriving DecidableEq, Repr

/-- The `EncodedGetTopologyResponse` wire type (`subnet_configs` record as an
association list). -/
structure EncodedGetTopologyResponse where
  subnet_configs : List (String × EncodedSubnetTopology)
  default_effective_canister_id : String
deriving DecidableEq, Repr

/-- Models the external `Principal.fromText` of `@dfinity/principal`: the
claims settled here never inspect its output, so the text's code points stand
in for the decoded identifier bytes. -/
def principalFromText (s : String) : Principal :=
  s.data.map (fun c => ⟨c.toNat % 256, Nat.mod_lt _ (by omega)⟩)

/-- The `SubnetTopology` value type. -/
structure SubnetTopology where
  id : Principal
  type : SubnetType
  size : Nat
  canisterRanges : List (Principal × Principal)
deriving DecidableEq, Repr

/-- `decodeSubnetTopology`. -/
def decodeSubnetTopology (subnetId : String) (enc : EncodedSubnetTopology) :
    Except String SubnetTopology :=
  match decodeSubnetKind enc.subnet_kind with
  | .error e => .error e
  | .ok k =>
    match enc.canister_ranges.mapM (fun r =>
        match base64DecodePrincipal r.1, base64DecodePrincipal r.2 with
        | some a, some b => some (a, b)
        | _, _ => none) with
    | some ranges => .ok ⟨principalFromText subnetId, k, enc.size, ranges⟩
    | none => .error "Invalid base64 principal"

/-- `decodeGetTopologyResponse`: decode every entry of the record. -/
def decodeGetTopologyResponse (enc : EncodedGetTopologyResponse) :
    Except String (List (String × SubnetTopology)) :=
  enc.subnet_configs.mapM fun p => (decodeSubnetTopology p.1 p.2).map (fun t => (p.1, t))

/-- The `EncodedCanisterHttpHeader` wire type. -/
structure EncodedCanisterHttpHeader where
  name : String
  value : String
deriving DecidableEq, Repr

/-- The `EncodedGetPendingHttpsOutcallsResponse` wire type (the nested
`subnet_id.subnet_id` flattened to its base64 string). -/
structure EncodedHttpsOutcall where
  subnet_id : String
  request_id : Nat
  http_method : String
  url : String
  headers : List EncodedCanisterHttpHeader
  body : String
  max_response_bytes : Option Nat
deriving DecidableEq, Repr

/-- The `GetPendingHttpsOutcallsResponse` value type. -/
structure HttpsOutcall where
  subnetId : Principal
  requestId : Nat
  httpMethod : CanisterHttpMethod
  url : String
  headers : List (String × String)
  body : List Byte
  maxResponseBytes : Option Nat
deriving DecidableEq, Repr

/-- `decodeHttpHeader`. -/
def decodeHttpHeader (h : EncodedCanisterHttpHeader) : String × String := (h.name, h.value)

/-- `decodeHttpOutcall`. -/
def decodeHttpOutcall (enc : EncodedHttpsOutcall) : Except String HttpsOutcall :=
  match base64DecodePrincipal enc.subnet_id with
  | none => .error "Invalid base64 principal"
  | some sid =>
    match decodeCanisterHttpMethod enc.http_method with
    | .error e => .error e
    | .ok m =>
      match base64Decode enc.body with
      | none => .error "Invalid base64 payload"
      | some b =>
        .ok ⟨sid, enc.request_id, m, enc.url, enc.headers.map decodeHttpHeader, b,
             enc.max_response_bytes⟩

/-- `decodeGetPendingHttpsOutcallsResponse`. -/
def decodeGetPendingHttpsOutcallsResponse (res : List EncodedHttpsOutcall) :
    Except String (List HttpsOutcall) :=
  res.mapM decodeHttpOutcall

/-- The `HttpsOutcallResponseMock` value type. -/
inductive HttpsOutcallResponseMock
  | success (statusCode : Nat) (headers : List (String × String)) (body : List Byte)
  | reject (statusCode : Nat) (message : String)
deriving DecidableEq, Repr

/-- The `EncodedHttpsOutcallResponseMock` wire union. -/
inductive EncodedHttpsOutcallResponseMock
  | CanisterHttpReply (status : Nat) (headers : List EncodedCanisterHttpHeader) (body : String)
  | CanisterHttpReject (reject_code : Nat) (message : String)
deriving DecidableEq, Repr

/-- `encodeHttpHeader`. -/
def encodeHttpHeader (h : String × String) : EncodedCanisterHttpHeader := ⟨h.1, h.2⟩

/-- `encodeHttpsOutcallResponse`. -/
def encodeHttpsOutcallResponse :
    HttpsOutcallResponseMock → EncodedHttpsOutcallResponseMock
  | .success st hs b => .CanisterHttpReply st (hs.map encodeHttpHeader) (base64Encode b)
  | .reject st m => .CanisterHttpReject st m

/-- The `MockPendingHttpsOutcallRequest` value type. -/
structure MockPendingHttpsOutcallRequest where
  subnetId : Principal
  requestId : Nat
  response : HttpsOutcallResponseMock
  additionalResponses : List HttpsOutcallResponseMock
deriving DecidableEq, Repr

/-- The `EncodedMockPendingHttpsOutcallRequest` wire type. -/
structure EncodedMockPendingHttpsOutcallRequest where
  subnet_id : String
  request_id : Nat
  response : EncodedHttpsOutcallResponseMock
  additional_responses : List EncodedHttpsOutcallResponseMock
deriving DecidableEq, Repr

/-- `encodeMockPendingHttpsOutcallRequest`. -/
def encodeMockPendingHttpsOutcallRequest (req : MockPendingHttpsOutcallRequest) :
    EncodedMockPendingHttpsOutcallRequest :=
  ⟨base64EncodePrincipal req.subnetId, req.requestId,
   encodeHttpsOutcallResponse req.response,
   req.additionalResponses.map encodeHttpsOutcallResponse⟩

/-! ## Session client (`pocket-ic-client.ts`)

`PocketIcClient` holds the `isInstanceDeleted` flag and the instance path.
Every operation is a function of the state (plus a server environment giving
the already-parsed JSON body for each endpoint) returning its result together
with the list of network requests it issued; an operation on a deleted
instance must return the local error and an empty request list. -/

/-- The mutable state of a `PocketIcClient`. -/
structure ClientState where
  isInstanceDeleted : Bool
  instancePath : String
deriving DecidableEq, Repr

/-- The encoded body attached to an issued request. -/
inductive EncodedRequestBody
  | noBody
  | emptyObj
  | canisterCall (r : EncodedCanisterCallRequest)
  | ingressStatusReq (r : EncodedIngressStatusRequest)
  | setTimeBody (r : EncodedSetTimeRequest)
  | canisterIdBody (r : EncodedCanisterIdRequest)
  | addCyclesBody (r : EncodedAddCyclesRequest)
  | setStableMemoryBody (r : EncodedSetStableMemoryRequest)
  | mockOutcallBody (r : EncodedMockPendingHttpsOutcallRequest)
deriving DecidableEq, Repr

/-- One network request issued by the client. -/
structure NetworkRequest where
  method : String
  path : String
  body : EncodedRequestBody
deriving DecidableEq, Repr

/-- The server environment: the parsed JSON body answering each endpoint
(ingress status indexed by the polling round). -/
structure ClientEnv where
  queryResponse : EncodedCanisterCallResult String
  submitResponse : EncodedCanisterCallResult EncodedCanisterCallId
  ingressStatus : Nat → EncodedIngressStatusResponse
  timeResponse : EncodedGetTimeResponse
  cyclesResponse : Nat
  addCyclesResponse : Nat
  stableMemoryResponse : String
  topologyResponse : EncodedGetTopologyResponse
  outcallsResponse : List EncodedHttpsOutcall

/-- The message of the error thrown by `assertInstanceNotDeleted`. -/
def instanceDeletedMessage : String := "Instance was deleted"

/-- `PocketIcClient.deleteInstance`: issue the DELETE, then set the flag. -/
def deleteInstance (s : ClientState) :
    Except String Unit × ClientState × List NetworkRequest :=
  if s.isInstanceDeleted then (.error instanceDeletedMessage, s, [])
  else (.ok (), ⟨true, s.instancePath⟩, [⟨"DELETE", s.instancePath, .noBody⟩])

/-- `PocketIcClient.tick`. -/
def tick (s : ClientState) : Except String Unit × List NetworkRequest :=
  if s.isInstanceDeleted then (.error instanceDeletedMessage, [])
  else (.ok (), [⟨"POST", s.instancePath ++ "/update/tick", .emptyObj⟩])

/-- `PocketIcClient.queryCall`. -/
def queryCall (s : ClientState) (env : ClientEnv) (req : CanisterCallRequest) :
    Except String CanisterCallResponse × List NetworkRequest :=
  if s.isInstanceDeleted then (.error instanceDeletedMessage, [])
  else
    (decodeCanisterCallResponse env.queryResponse,
     [⟨"POST", s.instancePath ++ "/read/query",
       .canisterCall (encodeCanisterCallRequest req)⟩])

/-- `PocketIcClient.submitCall`. -/
def submitCall (s : ClientState) (env : ClientEnv) (req : CanisterCallRequest) :
    Except String SubmitCanisterCallResponse × List NetworkRequest :=
  if s.isInstanceDeleted then (.error instanceDeletedMessage, [])
  else
    (decodeSubmitCanisterCallResponse env.submitResponse,
     [⟨"POST", s.instancePath ++ "/update/submit_ingress_message",
       .canisterCall (encodeCanisterCallRequest req)⟩])

/-- `PocketIcClient.ingressStatus` (the round index selects the server's
answer to this poll). -/
def ingressStatus (s : ClientState) (env : ClientEnv) (round : Nat)
    (req : IngressStatusRequest) :
    Except String (Option CanisterCallResponse) × List NetworkRequest :=
  if s.isInstanceDeleted then (.error instanceDeletedMessage, [])
  else
    (decodeIngressStatusResponse (env.ingressStatus round),
     [⟨"POST", s.instancePath ++ "/read/ingress_status",
       .ingressStatusReq (encodeIngressStatusRequest req)⟩])

/-- The `AWAIT_INGRESS_STATUS_ROUNDS` protocol constant. -/
def AWAIT_INGRESS_STATUS_ROUNDS : Nat := 100

/-- The message of the error thrown when the round bound is exhausted. -/
def awaitRoundsMessage : String :=
  "PocketIC did not complete the update call within " ++
    toString AWAIT_INGRESS_STATUS_ROUNDS ++ " rounds"

/-- The body of `awaitCall`'s `for` loop: tick, then poll ingress status;
return the decoded result the first time the status is non-null; throw the
rounds-exhausted error when the bound is spent. -/
def awaitCallLoop (s : ClientState) (env : ClientEnv) (req : IngressStatusRequest) :
    Nat → Nat → Except String CanisterCallResponse × List NetworkRequest
  | _, 0 => (.error awaitRoundsMessage, [])
  | i, fuel + 1 =>
    let t := tick s
    match t.1 with
    | .error e => (.error e, t.2)
    | .ok _ =>
      let st := ingressStatus s env i req
      match st.1 with
      | .error e => (.error e, t.2 ++ st.2)
      | .ok (some r) => (.ok r, t.2 ++ st.2)
      | .ok none =>
        let rest := awaitCallLoop s env req (i + 1) fuel
        (rest.1, t.2 ++ st.2 ++ rest.2)

/-- `PocketIcClient.awaitCall`. -/
def awaitCall (s : ClientState) (env : ClientEnv) (req : SubmitCanisterCallResponse) :
    Except String CanisterCallResponse × List NetworkRequest :=
  if s.isInstanceDeleted then (.error instanceDeletedMessage, [])
  else
    awaitCallLoop s env ⟨encodeAwaitCanisterCallRequest req, none⟩ 0
      AWAIT_INGRESS_STATUS_ROUNDS

/-- `PocketIcClient.updateCall`: submit, then await. -/
def updateCall (s : ClientState) (env : ClientEnv) (req : CanisterCallRequest) :
    Except String CanisterCallResponse × List NetworkRequest :=
  if s.isInstanceDeleted then (.error instanceDeletedMessage, [])
  else
    let sub := submitCall s env req
    match sub.1 with
    | .error e => (.error e, sub.2)
    | .ok r =>
      let aw := awaitCall s env r
      (aw.1, sub.2 ++ aw.2)

/-- `PocketIcClient.getTime`. -/
def getTime (s : ClientState) (env : ClientEnv) :
    Except String GetTimeResponse × List NetworkRequest :=
  if s.isInstanceDeleted then (.error instanceDeletedMessage, [])
  else
    (.ok (decodeGetTimeResponse env.timeResponse),
     [⟨"GET", s.instancePath ++ "/read/get_time", .noBody⟩])

/-- `PocketIcClient.setTime`. -/
def setTime (s : ClientState) (req : SetTimeRequest) :
    Except String Unit × List NetworkRequest :=
  if s.isInstanceDeleted then (.error instanceDeletedMessage, [])
  else
    (.ok (), [⟨"POST", s.instancePath ++ "/update/set_time",
      .setTimeBody (encodeSetTimeRequest req)⟩])

/-- `PocketIcClient.setCertifiedTime`. -/
def setCertifiedTime (s : ClientState) (req : SetTimeRequest) :
    Except String Unit × List NetworkRequest :=
  if s.isInstanceDeleted then (.error instanceDeletedMessage, [])
  else
    (.ok (), [⟨"POST", s.instancePath ++ "/update/set_certified_time",
      .setTimeBody (encodeSetTimeRequest req)⟩])

/-- `PocketIcClient.getCyclesBalance`. -/
def getCyclesBalance (s : ClientState) (env : ClientEnv) (canisterId : Principal) :
    Except String Nat × List NetworkRequest :=
  if s.isInstanceDeleted then (.error instanceDeletedMessage, [])
  else
    (.ok (decodeGetCyclesBalanceResponse env.cyclesResponse),
     [⟨"POST", s.instancePath ++ "/read/get_cycles",
       .canisterIdBody (encodeGetCyclesBalanceRequest canisterId)⟩])

/-- `PocketIcClient.addCycles`. -/
def addCycles (s : ClientState) (env : ClientEnv) (canisterId : Principal)
    (amount : Nat) : Except String Nat × List NetworkRequest :=
  if s.isInstanceDeleted then (.error instanceDeletedMessage, [])
  else
    (.ok (decodeAddCyclesResponse env.addCyclesResponse),
     [⟨"POST", s.instancePath ++ "/update/add_cycles",
       .addCyclesBody (encodeAddCyclesRequest canisterId amount)⟩])

/-- `PocketIcClient.getStableMemory`. -/
def getStableMemory (s : ClientState) (env : ClientEnv) (canisterId : Principal) :
    Except String (List Byte) × List NetworkRequest :=
  if s.isInstanceDeleted then (.error instanceDeletedMessage, [])
  else
    (decodeGetStableMemoryResponse env.stableMemoryResponse,
     [⟨"POST", s.instancePath ++ "/read/get_stable_memory",
       .canisterIdBody (encodeGetStableMemoryRequest canisterId)⟩])

/-- `PocketIcClient.setStableMemory` (the blob was uploaded separately; the
request references it by blob id). -/
def setStableMemory (s : ClientState) (canisterId : Principal) (blobId : List Byte) :
    Except String Unit × List NetworkRequest :=
  if s.isInstanceDeleted then (.error instanceDeletedMessage, [])
  else
    (.ok (), [⟨"POST", s.instancePath ++ "/update/set_stable_memory",
      .setStableMemoryBody (encodeSetStableMemoryRequest canisterId blobId)⟩])

/-- `PocketIcClient.getTopology`: fetch and decode on every call (no cache
field exists in the client). -/
def getTopology (s : ClientState) (env : ClientEnv) :
    Except String (List (String × SubnetTopology)) × List NetworkRequest :=
  if s.isInstanceDeleted then (.error instanceDeletedMessage, [])
  else
    (decodeGetTopologyResponse env.topologyResponse,
     [⟨"GET", s.instancePath ++ "/_/topology", .noBody⟩])

/-- `PocketIcClient.getPendingHttpsOutcalls`. -/
def getPendingHttpsOutcalls (s : ClientState) (env : ClientEnv) :
    Except String (List HttpsOutcall) × List NetworkRequest :=
  if s.isInstanceDeleted then (.error instanceDeletedMessage, [])
  else
    (decodeGetPendingHttpsOutcallsResponse env.outcallsResponse,
     [⟨"GET", s.instancePath ++ "/read/get_canister_http", .noBody⟩])

/-- `PocketIcClient.mockPendingHttpsOutcall`. -/
def mockPendingHttpsOutcall (s : ClientState) (req : MockPendingHttpsOutcallRequest) :
    Except String Unit × List NetworkRequest :=
  if s.isInstanceDeleted then (.error instanceDeletedMessage, [])
  else
    (.ok (), [⟨"POST", s.instancePath ++ "/update/mock_canister_http",
      .mockOutcallBody (encodeMockPendingHttpsOutcallRequest req)⟩])

/-- A concrete server environment used by concrete-input witnesses. -/
def sampleClientEnv : ClientEnv :=
  ⟨.Ok "AQID",
   .Ok ⟨.NoneTag, [⟨7, by omega⟩]⟩,
   fun _ => .nil,
   ⟨0⟩, 0, 0, "",
   ⟨[], "AA=="⟩,
   []⟩

/-- The two requests issued by one round of `awaitCall`'s loop: the tick,
then the ingress-status poll. -/
def roundRequests (s : ClientState) (req : IngressStatusRequest) : List NetworkRequest :=
  [⟨"POST", s.instancePath ++ "/update/tick", .emptyObj⟩,
   ⟨"POST", s.instancePath ++ "/read/ingress_status",
    .ingressStatusReq (encodeIngressStatusRequest req)⟩]

/-- The requests issued by `n` rounds of `awaitCall`'s loop. -/
def awaitTrace (s : ClientState) (req : IngressStatusRequest) : Nat → List NetworkRequest
  | 0 => []
  | n + 1 => roundRequests s req ++ awaitTrace s req n

/-- A server environment whose ingress status stays `null` for the first two
polls and carries a result on the third. -/
def awaitWitnessEnv : ClientEnv :=
  ⟨.Ok "AQID",
   .Ok ⟨.NoneTag, [⟨7, by omega⟩]⟩,
   fun n => if n = 2 then .result (.Ok "AQID") else .nil,
   ⟨0⟩, 0, 0, "",
   ⟨[], "AA=="⟩,
   []⟩

/-! # Theorems -/

attribute [local semireducible] Rat.add Rat.mul Rat.sub Rat.inv Rat.ofScientific

set_option maxRecDepth 20000

/-! ## Base64 round-trip lemmas -/

theorem charToSextet_sextetToChar : ∀ s : Fin 64, charToSextet (sextetToChar s) = some s := by
  decide

theorem sextetToChar_ne_pad : ∀ s : Fin 64, sextetToChar s ≠ '=' := by
  decide

/-- Decoding a base64 encoding recovers the original bytes. -/
theorem b64DecodeList_b64EncodeList (l : List Byte) :
    b64DecodeList (b64EncodeList l) = some l := by
  induction l using b64EncodeList.induct with
  | case1 => rfl
  | case2 b0 =>
    have h0 := b0.isLt
    simp [b64EncodeList, b64DecodeList, charToSextet_sextetToChar, Fin.ext_iff]
    omega
  | case3 b0 b1 =>
    have h0 := b0.isLt
    have h1 := b1.isLt
    simp [b64EncodeList, b64DecodeList, sextetToChar_ne_pad, charToSextet_sextetToChar,
      Fin.ext_iff]
    omega
  | case4 b0 b1 b2 rest ih =>
    have h0 := b0.isLt
    have h1 := b1.isLt
    have h2 := b2.isLt
    simp [b64EncodeList, encodeGroup3, b64DecodeList, sextetToChar_ne_pad,
      charToSextet_sextetToChar, ih, decodeGroup3, Fin.ext_iff]
    omega

theorem base64Decode_base64Encode (l : List Byte) :
    base64Decode (base64Encode l) = some l := by
  simpa [base64Decode, base64Encode] using b64DecodeList_b64EncodeList l

/-! ## C1: effective-principal round-trip -/

/-- C1: for every effective-principal value `x` (none, subnet id, or canister
id), `decodeEffectivePrincipal (encodeEffectivePrincipal x) = x`, and for
every well-formed encoded value `y` (one produced by the encoder),
decoding succeeds and re-encoding the decoded value recovers `y`. -/
theorem effectivePrincipal_roundtrip (x : Option EffectivePrincipal)
    (y : EncodedEffectivePrincipal) (hy : ∃ x0, encodeEffectivePrincipal x0 = y) :
    decodeEffectivePrincipal (encodeEffectivePrincipal x) = some x ∧
    ∃ x1, decodeEffectivePrincipal y = some x1 ∧ encodeEffectivePrincipal x1 = y := by
  have enc_dec : ∀ z : Option EffectivePrincipal,
      decodeEffectivePrincipal (encodeEffectivePrincipal z) = some z := by
    rintro (_ | ⟨p⟩ | ⟨p⟩) <;>
      simp [encodeEffectivePrincipal, decodeEffectivePrincipal,
        base64DecodePrincipal, base64EncodePrincipal, base64Decode_base64Encode]
  refine ⟨enc_dec x, ?_⟩
  obtain ⟨x0, rfl⟩ := hy
  exact ⟨x0, enc_dec x0, rfl⟩

/-- Witness for `effectivePrincipal_roundtrip` at concrete inputs. -/
theorem effectivePrincipal_roundtrip_witness :
    decodeEffectivePrincipal
        (encodeEffectivePrincipal (some (.subnetId [⟨1, by omega⟩, ⟨2, by omega⟩]))) =
      some (some (.subnetId [⟨1, by omega⟩, ⟨2, by omega⟩])) ∧
    ∃ x1, decodeEffectivePrincipal (.CanisterId "AQID") = some x1 ∧
      encodeEffectivePrincipal x1 = .CanisterId "AQID" := by
  have h : ∃ x0, encodeEffectivePrincipal x0 = .CanisterId "AQID" :=
    ⟨some (.canisterId [⟨1, by omega⟩, ⟨2, by omega⟩, ⟨3, by omega⟩]), by decide⟩
  exact effectivePrincipal_roundtrip
    (some (.subnetId [⟨1, by omega⟩, ⟨2, by omega⟩])) (.CanisterId "AQID") h

/-! ## C6: time codec -/

/-- C6 counterexample: decoding does not floor.  At the nanosecond timestamp
`1_500_000` the decoder yields `1.5` milliseconds (an exact IEEE-754 value),
not the floored value `1` the claim requires. -/
theorem decodeGetTimeResponse_not_floor :
    (decodeGetTimeResponse ⟨1500000⟩).millisSinceEpoch ≠
      ((⌊(1500000 : ℚ) / 1000000⌋ : ℤ) : ℚ) := by
  norm_num [decodeGetTimeResponse]

/-- C6 amended: decoding divides the nanosecond count by `1_000_000` exactly
(without flooring or rounding), so on a count with no sub-millisecond
remainder it yields the integer quotient, and re-encoding the decoded value
reproduces the original nanosecond count. -/
theorem time_codec_roundtrip (n : ℤ) (h : (1000000 : ℤ) ∣ n) :
    (decodeGetTimeResponse ⟨(n : ℚ)⟩).millisSinceEpoch = ((n / 1000000 : ℤ) : ℚ) ∧
    encodeSetTimeRequest ⟨(decodeGetTimeResponse ⟨(n : ℚ)⟩).millisSinceEpoch⟩ =
      ⟨(n : ℚ)⟩ := by
  obtain ⟨k, rfl⟩ := h
  constructor
  · simp only [decodeGetTimeResponse]
    rw [Int.mul_ediv_cancel_left _ (by norm_num)]
    push_cast
    ring
  · simp only [decodeGetTimeResponse, encodeSetTimeRequest, EncodedSetTimeRequest.mk.injEq]
    rw [div_mul_cancel₀ _ (by norm_num : (1000000 : ℚ) ≠ 0)]

/-- Witness for `time_codec_roundtrip` at `n = 5_000_000`. -/
theorem time_codec_roundtrip_witness :
    (1000000 : ℤ) ∣ 5000000 ∧
    (decodeGetTimeResponse ⟨((5000000 : ℤ) : ℚ)⟩).millisSinceEpoch =
      (((5000000 : ℤ) / 1000000 : ℤ) : ℚ) ∧
    encodeSetTimeRequest ⟨(decodeGetTimeResponse ⟨((5000000 : ℤ) : ℚ)⟩).millisSinceEpoch⟩ =
      ⟨((5000000 : ℤ) : ℚ)⟩ :=
  ⟨by norm_num, (time_codec_roundtrip 5000000 (by norm_num)).1,
   (time_codec_roundtrip 5000000 (by norm_num)).2⟩

/-! ## C10: create-instance encoding -/

/-- C10 counterexample: a request `{}` with no subnet configured at all does
not throw `TopologyValidationError`; the encoder silently inserts a default
application subnet. -/
theorem encodeCreateInstanceRequest_empty_request_no_throw :
    encodeCreateInstanceRequest (some emptyCreateInstanceRequest) =
      .ok ⟨⟨none, none, none, none, none, [], [⟨.Enabled, .Production, .New⟩], []⟩,
        false⟩ := by
  rfl

/-- C10 amended: `encodeCreateInstanceRequest` with no request argument
produces exactly one application subnet with a new state, deterministic time
slicing enabled and production instruction limits; and it throws
`TopologyValidationError` for every request in which no NNS, SNS, II,
fiduciary, bitcoin, or system subnet is configured and the application list
is present but explicitly empty (a request omitting the application field
instead receives the default application subnet and does not throw). -/
theorem encodeCreateInstanceRequest_cases (req : CreateInstanceRequest)
    (h1 : req.nns = none) (h2 : req.sns = none) (h3 : req.ii = none)
    (h4 : req.fiduciary = none) (h5 : req.bitcoin = none)
    (h6 : req.system.getD [] = []) (h7 : req.application = some []) :
    encodeCreateInstanceRequest none =
      .ok ⟨⟨none, none, none, none, none, [], [⟨.Enabled, .Production, .New⟩], []⟩,
        false⟩ ∧
    encodeCreateInstanceRequest (some req) = .error .mk := by
  refine ⟨rfl, ?_⟩
  simp [encodeCreateInstanceRequest, h1, h2, h3, h4, h5, h6, h7,
    encodeManySubnetConfigs, encodeSubnetConfig]

/-! ## C7: rejection decoding -/

theorem isPrefixOf_self_append (sub t : List Char) : sub.isPrefixOf (sub ++ t) = true := by
  induction sub with
  | nil => simp [List.isPrefixOf]
  | cons a as ih => simp [List.isPrefixOf, ih]

theorem isInfixB_of_prefix (sub s : List Char) (h : sub.isPrefixOf s = true) :
    isInfixB sub s = true := by
  cases s with
  | nil =>
    cases sub with
    | nil => rfl
    | cons a as => simp [List.isPrefixOf] at h
  | cons c rest => simp only [isInfixB, h, Bool.true_or]

theorem isInfixB_append (pre sub post : List Char) :
    isInfixB sub (pre ++ sub ++ post) = true := by
  induction pre with
  | nil =>
    exact isInfixB_of_prefix _ _ (by simp [isPrefixOf_self_append])
  | cons c pre ih =>
    rw [List.cons_append]
    simp only [isInfixB, List.append_eq, ih, Bool.or_true]

theorem containsSubstr_of_data_eq (s : String) (sub : String) (pre post : List Char)
    (h : s.data = pre ++ sub.data ++ post) : containsSubstr s sub := by
  unfold containsSubstr
  rw [h]
  exact isInfixB_append pre sub.data post

/-- C7 counterexample: a trap-shaped `Err` rejection is decoded into an error
whose message has been rewritten by the trap formatter and no longer carries
the numeric reject code or error code. -/
theorem decodeResultResponse_trap_drops_codes :
    (@decodeResultResponse String (.Err trapErrExample)).isOk = false ∧
    ¬ containsSubstr (exceptErrorStr (@decodeResultResponse String (.Err trapErrExample)))
        ("Reject code: " ++ toString trapErrExample.reject_code) ∧
    ¬ containsSubstr (exceptErrorStr (@decodeResultResponse String (.Err trapErrExample)))
        ("Error code: " ++ toString trapErrExample.error_code) ∧
    containsSubstr (exceptErrorStr (@decodeResultResponse String (.Err trapErrExample)))
        "oops" := by
  refine ⟨rfl, by decide, by decide, by decide⟩

/-- C7 amended: decoding an `Err` variant always raises an error and never
yields a value; for every non-trap-shaped rejection the raised error's message
carries the reject message, the numeric reject code, the numeric error code
and the certified flag; decoding an `Ok` variant returns the contained value.
(Trap-shaped rejections instead get a compact colored trap line that keeps the
trap message but drops the numeric codes.) -/
theorem decodeResultResponse_rejection (e : EncodedCanisterCallRejectResponse) (v : String)
    (h : formatTrapMessageIfAny (rejectBaseMessage e) = none) :
    @decodeResultResponse String (.Err e) = .error (rejectBaseMessage e) ∧
    containsSubstr (rejectBaseMessage e) e.reject_message ∧
    containsSubstr (rejectBaseMessage e) (". Reject code: " ++ toString e.reject_code) ∧
    containsSubstr (rejectBaseMessage e) (". Error code: " ++ toString e.error_code) ∧
    containsSubstr (rejectBaseMessage e) (". Certified: " ++ boolToString e.certified) ∧
    @decodeResultResponse String (.Ok v) = .ok v ∧
    ∀ e' : EncodedCanisterCallRejectResponse,
      ∃ m, @decodeResultResponse String (.Err e') = .error m := by
  have hdata : (rejectBaseMessage e).data =
      "Canister call failed: ".data ++ e.reject_message.data ++
        (". Reject code: ".data ++ (toString e.reject_code).data ++
         ". Error code: ".data ++ (toString e.error_code).data ++
         ". Certified: ".data ++ (boolToString e.certified).data) := by
    simp [rejectBaseMessage, String.data_append, List.append_assoc]
  refine ⟨by simp [decodeResultResponse, h], ?_, ?_, ?_, ?_, rfl, fun e' => ⟨_, rfl⟩⟩
  · exact containsSubstr_of_data_eq _ _ _ _ hdata
  · refine containsSubstr_of_data_eq _ _
      ("Canister call failed: ".data ++ e.reject_message.data)
      (". Error code: ".data ++ (toString e.error_code).data ++
       ". Certified: ".data ++ (boolToString e.certified).data) ?_
    rw [hdata]
    simp [String.data_append, List.append_assoc]
  · refine containsSubstr_of_data_eq _ _
      ("Canister call failed: ".data ++ e.reject_message.data ++
       ". Reject code: ".data ++ (toString e.reject_code).data)
      (". Certified: ".data ++ (boolToString e.certified).data) ?_
    rw [hdata]
    simp [String.data_append, List.append_assoc]
  · refine containsSubstr_of_data_eq _ _
      ("Canister call failed: ".data ++ e.reject_message.data ++
       ". Reject code: ".data ++ (toString e.reject_code).data ++
       ". Error code: ".data ++ (toString e.error_code).data)
      [] ?_
    rw [hdata]
    simp [String.data_append, List.append_assoc]

/-- Witness for `decodeResultResponse_rejection` at a concrete non-trap
rejection. -/
theorem decodeResultResponse_rejection_witness :
    @decodeResultResponse String (.Err ⟨3, "destination invalid", 101, false⟩) =
      .error (rejectBaseMessage ⟨3, "destination invalid", 101, false⟩) ∧
    containsSubstr (rejectBaseMessage ⟨3, "destination invalid", 101, false⟩)
      "destination invalid" := by
  have h : formatTrapMessageIfAny
      (rejectBaseMessage ⟨3, "destination invalid", 101, false⟩) = none := by decide
  obtain ⟨h1, h2, -⟩ := decodeResultResponse_rejection ⟨3, "destination invalid", 101, false⟩ "" h
  exact ⟨h1, h2⟩

/-! ## C2: 409 busy handling -/

/-- C2: evaluating the 409 handler at a response with a valid
`{state_label, op_id}` body.  The `ServerBusyError` thrown inside the `try`
block of the `CONFLICT` case is caught by that block's own `catch` and
re-thrown as a generic `ServerResponseError`, so the caller never observes
the distinguished busy error. -/
theorem conflict409_busy_error_swallowed (rg : Nat → HttpResponse) (fuel k : Nat) :
    handleJsonResponse rg fuel k busyResponse =
      some (.error (.serverResponse
        ("Could not parse response: " ++ errToString (.serverBusy "Server busy")))) ∧
    ∀ m, handleJsonResponse rg fuel k busyResponse ≠ some (.error (.serverBusy m)) := by
  have h1 : handleJsonResponse rg fuel k busyResponse =
      some (.error (.serverResponse
        ("Could not parse response: " ++ errToString (.serverBusy "Server busy")))) := by
    simp [handleJsonResponse, busyResponse, simplifyStatus]
  refine ⟨h1, fun m hm => ?_⟩
  rw [h1] at hm
  simp at hm

/-! ## C4: the read-result long-poll is unbounded -/

/-- The read-result loop never terminates against a server that answers every
`/read_graph` poll with a 404: for every fuel bound it is still running. -/
theorem readGraphLoop_always404_never_terminates (fuel k : Nat) :
    readGraphLoop always404 fuel k = none := by
  induction fuel generalizing k with
  | zero => simp [readGraphLoop]
  | succ n ih => simp [readGraphLoop, always404, ih]

/-- C4: a 202 `{state_label, op_id}` response followed by endless 404s from
`/read_graph` makes `#handleJsonResponse` poll forever — for every fuel bound
it has produced neither a result nor a timeout error — and the `poll` retry
wrapper around it waits forever as well (it only acts once an attempt
settles), so no timeout error is ever surfaced. -/
theorem processing202_always404_polls_forever (fuel k : Nat)
    (elapsedMs : Nat → Nat) (timeoutMs n budget : Nat) :
    handleJsonResponse always404 fuel k processingResponse = none ∧
    pollModel (fun _ => handleJsonResponse always404 fuel k processingResponse)
      elapsedMs timeoutMs n budget = none := by
  have hmain : handleJsonResponse always404 fuel k processingResponse = none := by
    simp [handleJsonResponse, processingResponse, simplifyStatus,
      readGraphLoop_always404_never_terminates]
  refine ⟨hmain, ?_⟩
  cases budget with
  | zero => rfl
  | succ b => simp [pollModel, hmain]

/-! ## C9: unknown tags fail decoding -/

/-- C9: each wire-layer tagged-union decoder maps every unknown tag to an
explicit error (never a default value), while known tags and the `Ok`/`Err`
result shape decode as expected. -/
theorem decoders_fail_on_unknown_tags (s m t : String)
    (hs : s ∉ (["Application", "Bitcoin", "Fiduciary", "II", "NNS", "SNS",
      "System"] : List String))
    (hm : m ∉ (["GET", "POST", "HEAD"] : List String)) :
    decodeSubnetKind s = .error ("Unknown subnet kind: " ++ s) ∧
    decodeCanisterHttpMethod m = .error ("Unknown canister HTTP method: " ++ m) ∧
    decodeIngressStatusResponse (.unknownTag t) =
      .error ("Unexpected ingress status response " ++ t) ∧
    decodeSubnetKind "Application" = .ok .Application ∧
    decodeSubnetKind "Bitcoin" = .ok .Bitcoin ∧
    decodeSubnetKind "Fiduciary" = .ok .Fiduciary ∧
    decodeSubnetKind "II" = .ok .InternetIdentity ∧
    decodeSubnetKind "NNS" = .ok .NNS ∧
    decodeSubnetKind "SNS" = .ok .SNS ∧
    decodeSubnetKind "System" = .ok .System ∧
    decodeCanisterHttpMethod "GET" = .ok .GET ∧
    decodeCanisterHttpMethod "POST" = .ok .POST ∧
    decodeCanisterHttpMethod "HEAD" = .ok .HEAD ∧
    decodeIngressStatusResponse .nil = .ok none := by
  simp only [List.mem_cons, List.mem_singleton, not_or] at hs hm
  obtain ⟨hs1, hs2, hs3, hs4, hs5, hs6, hs7, -⟩ := hs
  obtain ⟨hm1, hm2, hm3, -⟩ := hm
  refine ⟨?_, ?_, rfl, rfl, rfl, rfl, rfl, rfl, rfl, rfl, rfl, rfl, rfl, rfl⟩
  · simp [decodeSubnetKind, hs1, hs2, hs3, hs4, hs5, hs6, hs7]
  · simp [decodeCanisterHttpMethod, hm1, hm2, hm3]

/-- Witness for `decoders_fail_on_unknown_tags` at concrete unknown tags. -/
theorem decoders_fail_on_unknown_tags_witness :
    decodeSubnetKind "Unknown" = .error ("Unknown subnet kind: " ++ "Unknown") ∧
    decodeCanisterHttpMethod "PATCH" =
      .error ("Unknown canister HTTP method: " ++ "PATCH") ∧
    decodeIngressStatusResponse (.unknownTag "Pending") =
      .error ("Unexpected ingress status response " ++ "Pending") := by
  obtain ⟨h1, h2, h3, -⟩ :=
    decoders_fail_on_unknown_tags "Unknown" "PATCH" "Pending" (by decide) (by decide)
  exact ⟨h1, h2, h3⟩

/-- Witness for `encodeCreateInstanceRequest_cases` at a concrete request with
an explicitly empty application list. -/
theorem encodeCreateInstanceRequest_cases_witness :
    encodeCreateInstanceRequest none =
      .ok ⟨⟨none, none, none, none, none, [], [⟨.Enabled, .Production, .New⟩], []⟩,
        false⟩ ∧
    encodeCreateInstanceRequest
        (some ⟨none, none, none, none, none, none, some [], none, none, none⟩) =
      .error .mk :=
  encodeCreateInstanceRequest_cases
    ⟨none, none, none, none, none, none, some [], none, none, none⟩
    rfl rfl rfl rfl rfl rfl rfl

/-! ## C5: teardown guard -/

/-- C5: deleting a live instance succeeds (issuing the DELETE) and marks the
state deleted; on a deleted state every operation — tick, query call, submit
call, await call, update call, time, cycles, stable memory, topology, outcall
operations and a second `deleteInstance` — fails synchronously with the local
"Instance was deleted" error and issues no network request. -/
theorem teardown_guard (s : ClientState) (env : ClientEnv)
    (req : CanisterCallRequest) (sub : SubmitCanisterCallResponse)
    (t : SetTimeRequest) (p : Principal) (amt : Nat) (blobId : List Byte)
    (mock : MockPendingHttpsOutcallRequest)
    (h : s.isInstanceDeleted = false) :
    deleteInstance s =
      (.ok (), ⟨true, s.instancePath⟩, [⟨"DELETE", s.instancePath, .noBody⟩]) ∧
    ∀ s' : ClientState, s'.isInstanceDeleted = true →
      tick s' = (.error instanceDeletedMessage, []) ∧
      queryCall s' env req = (.error instanceDeletedMessage, []) ∧
      submitCall s' env req = (.error instanceDeletedMessage, []) ∧
      awaitCall s' env sub = (.error instanceDeletedMessage, []) ∧
      updateCall s' env req = (.error instanceDeletedMessage, []) ∧
      getTime s' env = (.error instanceDeletedMessage, []) ∧
      setTime s' t = (.error instanceDeletedMessage, []) ∧
      setCertifiedTime s' t = (.error instanceDeletedMessage, []) ∧
      getCyclesBalance s' env p = (.error instanceDeletedMessage, []) ∧
      addCycles s' env p amt = (.error instanceDeletedMessage, []) ∧
      getStableMemory s' env p = (.error instanceDeletedMessage, []) ∧
      setStableMemory s' p blobId = (.error instanceDeletedMessage, []) ∧
      getTopology s' env = (.error instanceDeletedMessage, []) ∧
      getPendingHttpsOutcalls s' env = (.error instanceDeletedMessage, []) ∧
      mockPendingHttpsOutcall s' mock = (.error instanceDeletedMessage, []) ∧
      deleteInstance s' = (.error instanceDeletedMessage, s', []) := by
  refine ⟨by simp [deleteInstance, h], fun s' hs' => ?_⟩
  simp [tick, queryCall, submitCall, awaitCall, updateCall, getTime, setTime,
    setCertifiedTime, getCyclesBalance, addCycles, getStableMemory,
    setStableMemory, getTopology, getPendingHttpsOutcalls,
    mockPendingHttpsOutcall, deleteInstance, hs']

/-- Witness for `teardown_guard` at a concrete client state. -/
theorem teardown_guard_witness :
    deleteInstance ⟨false, "/instances/0"⟩ =
      (.ok (), ⟨true, "/instances/0"⟩, [⟨"DELETE", "/instances/0", .noBody⟩]) ∧
    tick ⟨true, "/instances/0"⟩ = (.error instanceDeletedMessage, []) ∧
    getTopology ⟨true, "/instances/0"⟩ sampleClientEnv =
      (.error instanceDeletedMessage, []) := by
  obtain ⟨h1, h2⟩ := teardown_guard ⟨false, "/instances/0"⟩ sampleClientEnv
    ⟨[], [], "method", [], none⟩ ⟨none, []⟩ ⟨0⟩ [] 0 []
    ⟨[], 0, .reject 1 "not mocked", []⟩ rfl
  obtain ⟨ht, -, -, -, -, -, -, -, -, -, -, -, hg, -⟩ :=
    h2 ⟨true, "/instances/0"⟩ rfl
  exact ⟨h1, ht, hg⟩

/-! ## C8: topology is re-fetched, not cached -/

/-- C8 counterexample: two consecutive topology fetches on an unchanged
instance issue two network requests — the claim's "without a second network
call" fails (the client has no topology cache). -/
theorem getTopology_no_cache :
    ((getTopology ⟨false, "/instances/0"⟩ sampleClientEnv).2 ++
        (getTopology ⟨false, "/instances/0"⟩ sampleClientEnv).2) =
      [⟨"GET", "/instances/0/_/topology", .noBody⟩,
       ⟨"GET", "/instances/0/_/topology", .noBody⟩] ∧
    (getTopology ⟨false, "/instances/0"⟩ sampleClientEnv).1 =
      (getTopology ⟨false, "/instances/0"⟩ sampleClientEnv).1 :=
  ⟨rfl, rfl⟩

/-- C8 amended: re-fetching the topology of an unchanged instance returns an
identical result (the decode of the same server response is deterministic),
but every fetch — the second included — issues one network request; nothing
is cached. -/
theorem getTopology_refetch (s : ClientState) (env : ClientEnv)
    (h : s.isInstanceDeleted = false) :
    (getTopology s env).1 = (getTopology s env).1 ∧
    (getTopology s env).2 = [⟨"GET", s.instancePath ++ "/_/topology", .noBody⟩] :=
  ⟨rfl, by simp [getTopology, h]⟩

/-- Witness for `getTopology_refetch` at a concrete client state. -/
theorem getTopology_refetch_witness :
    (getTopology ⟨false, "/instances/0"⟩ sampleClientEnv).1 =
      (getTopology ⟨false, "/instances/0"⟩ sampleClientEnv).1 ∧
    (getTopology ⟨false, "/instances/0"⟩ sampleClientEnv).2 =
      [⟨"GET", "/instances/0" ++ "/_/topology", .noBody⟩] :=
  getTopology_refetch ⟨false, "/instances/0"⟩ sampleClientEnv rfl

/-! ## C3: awaitCall loop lemmas -/

/-- When the first `j` polls decode to `null` and the `j`-th decodes to a
result, the loop returns that result after exactly `j + 1` tick-then-poll
rounds. -/
theorem awaitCallLoop_found (s : ClientState) (env : ClientEnv)
    (req : IngressStatusRequest) (i j fuel : Nat) (r : CanisterCallResponse)
    (hs : s.isInstanceDeleted = false) (hj : j < fuel)
    (hnull : ∀ d, d < j → decodeIngressStatusResponse (env.ingressStatus (i + d)) = .ok none)
    (hr : decodeIngressStatusResponse (env.ingressStatus (i + j)) = .ok (some r)) :
    awaitCallLoop s env req i fuel = (.ok r, awaitTrace s req (j + 1)) := by
  induction j generalizing i fuel with
  | zero =>
    obtain ⟨f, rfl⟩ : ∃ f, fuel = f + 1 := ⟨fuel - 1, by omega⟩
    simp only [Nat.add_zero] at hr
    simp [awaitCallLoop, tick, ingressStatus, hs, hr, awaitTrace, roundRequests]
  | succ j ih =>
    obtain ⟨f, rfl⟩ : ∃ f, fuel = f + 1 := ⟨fuel - 1, by omega⟩
    have h0 : decodeIngressStatusResponse (env.ingressStatus (i + 0)) = .ok none :=
      hnull 0 (by omega)
    simp only [Nat.add_zero] at h0
    have hrec := ih (i + 1) f (by omega)
      (fun d hd => by
        have := hnull (d + 1) (by omega)
        rwa [show i + (d + 1) = i + 1 + d by omega] at this)
      (by rwa [show i + 1 + j = i + (j + 1) by omega])
    simp [awaitCallLoop, tick, ingressStatus, hs, h0, hrec, awaitTrace, roundRequests]

/-- Two strings with different head characters differ. -/
theorem strNe_of_head_ne (a b : String) (c c' : Char)
    (ha : a.data.head? = some c) (hb : b.data.head? = some c') (h : c ≠ c') :
    a ≠ b := by
  intro e
  subst e
  rw [ha] at hb
  exact h (Option.some_inj.mp hb)

/-- The head character of a string concatenation is that of its (nonempty)
left part. -/
theorem data_head_append (a b : String) (c : Char) (h : a.data.head? = some c) :
    ((a ++ b).data).head? = some c := by
  rw [String.data_append]
  cases hd : a.data with
  | nil => rw [hd] at h; simp at h
  | cons x xs =>
    rw [hd] at h
    simp only [List.head?_cons, Option.some_inj] at h
    simp [h]

theorem exists_cons_of_head? (l : List Char) (c : Char) (h : l.head? = some c) :
    ∃ t, l = c :: t := by
  cases l with
  | nil => simp at h
  | cons x xs =>
    simp only [List.head?_cons, Option.some_inj] at h
    exact ⟨xs, by rw [h]⟩

/-- A prefix test fails when the head characters differ. -/
theorem isPrefixOf_false_of_head_ne (p s : List Char) (cp cs : Char)
    (hp : p.head? = some cp) (hs : s.head? = some cs) (hne : cp ≠ cs) :
    p.isPrefixOf s = false := by
  obtain ⟨pt, rfl⟩ := exists_cons_of_head? p cp hp
  obtain ⟨st, rfl⟩ := exists_cons_of_head? s cs hs
  show ((cp == cs) && pt.isPrefixOf st) = false
  have : (cp == cs) = false := by simp [hne]
  rw [this, Bool.false_and]

/-- The head of an intercalation is the head of its first (nonempty) piece. -/
theorem intercalateChar_head (sep : Char) (l : List Char) (ls : List (List Char))
    (c : Char) (h : l.head? = some c) :
    (intercalateChar sep (l :: ls)).head? = some c := by
  cases ls with
  | nil => simpa [intercalateChar] using h
  | cons l' ls' =>
    obtain ⟨t, rfl⟩ := exists_cons_of_head? l c h
    simp [intercalateChar]

/-- One step of the backtrace colorizer keeps the head line either unchanged
or prefixed by the gray bar. -/
theorem colorizeBacktrace_cons_shape (line : String) (rest : List String) (b : Bool) :
    (∃ t, colorizeBacktrace (line :: rest) b = line :: t) ∨
    (∃ t, colorizeBacktrace (line :: rest) b = (grayBar ++ colorLightRed line) :: t) := by
  rw [colorizeBacktrace]
  split_ifs <;> first
    | exact Or.inl ⟨_, rfl⟩
    | exact Or.inr ⟨_, rfl⟩

/-- Every trap-formatted message starts with the bug glyph (`U+F8FF`) or, when
the colorizer bars the first line, the ANSI escape character. -/
theorem formatTrapMessageIfAny_head (msg m : String)
    (h : formatTrapMessageIfAny msg = some m) :
    m.data.head? = some (Char.ofNat 63743) ∨ m.data.head? = some (Char.ofNat 27) := by
  unfold formatTrapMessageIfAny at h
  split at h
  · simp at h
  split at h
  · simp at h
  · dsimp only at h
    rename_i restLines heq1 x fullId trapMsg heq2
    rw [Option.some_inj] at h
    subst h
    set replaced := bugStr ++ " " ++ redStart ++ "[" ++
      coloredSquare (shortenPrincipal fullId) ++ redStart ++
      shortenPrincipal fullId ++ "] [CALL TRAP]: " ++ trapMsg ++ ansiReset with hrepl
    have hrep : replaced.data.head? = some (Char.ofNat 63743) := by
      rw [hrepl]
      repeat apply data_head_append
      decide
    have hguid : isConsiderGuidance replaced = false := by
      unfold isConsiderGuidance startsWithStr
      apply isPrefixOf_false_of_head_ne _ _ 'c' (Char.ofNat 63743) (by decide) _ (by decide)
      show ((replaced.data.map Char.toLower)).head? = some (Char.ofNat 63743)
      obtain ⟨tl, htl⟩ := exists_cons_of_head? _ _ hrep
      rw [htl]
      simp only [List.map_cons, List.head?_cons, Option.some_inj]
      decide
    dsimp only
    rw [List.filter_cons_of_pos (by simp [hguid])]
    rcases colorizeBacktrace_cons_shape replaced
        (restLines.filter fun line => !isConsiderGuidance line) false with ⟨t, ht⟩ | ⟨t, ht⟩
    · left
      rw [ht]
      simp only [List.map_cons]
      exact intercalateChar_head _ _ _ _ hrep
    · right
      rw [ht]
      simp only [List.map_cons]
      refine intercalateChar_head _ _ _ _ ?_
      apply data_head_append
      decide

/-- Every rejection message starts with `C`. -/
theorem rejectBaseMessage_head (e : EncodedCanisterCallRejectResponse) :
    (rejectBaseMessage e).data.head? = some 'C' := by
  unfold rejectBaseMessage
  repeat apply data_head_append
  decide

/-- The rounds-exhausted error of `awaitCall` is distinct from every error
`decodeResultResponse` can raise for a call rejection: rejection messages
start with `C` (plain) or the bug glyph / escape character (trap-formatted),
while the rounds message starts with `P`. -/
theorem rejectionError_ne_roundsMessage (e : EncodedCanisterCallRejectResponse) :
    exceptErrorStr (@decodeResultResponse String (.Err e)) ≠ awaitRoundsMessage := by
  have hP : awaitRoundsMessage.data.head? = some 'P' := by
    unfold awaitRoundsMessage
    repeat apply data_head_append
    decide
  cases hf : formatTrapMessageIfAny (rejectBaseMessage e) with
  | none =>
    have hmsg : exceptErrorStr (@decodeResultResponse String (.Err e)) =
        rejectBaseMessage e := by
      simp [decodeResultResponse, exceptErrorStr, hf]
    rw [hmsg]
    exact strNe_of_head_ne _ _ 'C' 'P' (rejectBaseMessage_head e) hP (by decide)
  | some m =>
    have hmsg : exceptErrorStr (@decodeResultResponse String (.Err e)) = m := by
      simp [decodeResultResponse, exceptErrorStr, hf]
    rw [hmsg]
    rcases formatTrapMessageIfAny_head _ _ hf with hh | hh
    · exact strNe_of_head_ne _ _ _ 'P' hh hP (by decide)
    · exact strNe_of_head_ne _ _ _ 'P' hh hP (by decide)

/-- When every poll within the fuel bound decodes to `null`, the loop runs
exactly `fuel` rounds and fails with the rounds-exhausted error. -/
theorem awaitCallLoop_exhausted (s : ClientState) (env : ClientEnv)
    (req : IngressStatusRequest) (i fuel : Nat)
    (hs : s.isInstanceDeleted = false)
    (hnull : ∀ d, d < fuel → decodeIngressStatusResponse (env.ingressStatus (i + d)) = .ok none) :
    awaitCallLoop s env req i fuel = (.error awaitRoundsMessage, awaitTrace s req fuel) := by
  induction fuel generalizing i with
  | zero => simp [awaitCallLoop, awaitTrace]
  | succ f ih =>
    have h0 : decodeIngressStatusResponse (env.ingressStatus (i + 0)) = .ok none :=
      hnull 0 (by omega)
    simp only [Nat.add_zero] at h0
    have hrec := ih (i + 1)
      (fun d hd => by
        have := hnull (d + 1) (by omega)
        rwa [show i + (d + 1) = i + 1 + d by omega] at this)
    simp [awaitCallLoop, tick, ingressStatus, hs, h0, hrec, awaitTrace, roundRequests]

/-- C3: `awaitCall` ticks before each ingress-status poll (the trace is
`j + 1` tick-then-poll rounds) and returns the decoded result at the first
round whose status is non-null; when every status within the fixed
`AWAIT_INGRESS_STATUS_ROUNDS = 100` bound is null it stops after exactly 100
rounds and throws the rounds-exhausted error, which no call rejection raised
by `decodeResultResponse` can equal. -/
theorem awaitCall_spec (s : ClientState) (env : ClientEnv)
    (req : SubmitCanisterCallResponse) (j : Nat) (r : CanisterCallResponse)
    (hs : s.isInstanceDeleted = false) (hj : j < AWAIT_INGRESS_STATUS_ROUNDS)
    (hnull : ∀ d, d < j → decodeIngressStatusResponse (env.ingressStatus d) = .ok none)
    (hr : decodeIngressStatusResponse (env.ingressStatus j) = .ok (some r)) :
    awaitCall s env req =
      (.ok r, awaitTrace s ⟨encodeAwaitCanisterCallRequest req, none⟩ (j + 1)) ∧
    (∀ env' : ClientEnv,
      (∀ d, d < AWAIT_INGRESS_STATUS_ROUNDS →
        decodeIngressStatusResponse (env'.ingressStatus d) = .ok none) →
      awaitCall s env' req =
        (.error awaitRoundsMessage,
         awaitTrace s ⟨encodeAwaitCanisterCallRequest req, none⟩
           AWAIT_INGRESS_STATUS_ROUNDS)) ∧
    ∀ e : EncodedCanisterCallRejectResponse,
      exceptErrorStr (@decodeResultResponse String (.Err e)) ≠ awaitRoundsMessage := by
  refine ⟨?_, fun env' hnull' => ?_, rejectionError_ne_roundsMessage⟩
  · unfold awaitCall
    rw [if_neg (by simp [hs])]
    exact awaitCallLoop_found s env _ 0 j _ r hs hj
      (fun d hd => by simpa using hnull d hd) (by simpa using hr)
  · unfold awaitCall
    rw [if_neg (by simp [hs])]
    exact awaitCallLoop_exhausted s env' _ 0 _ hs
      (fun d hd => by simpa using hnull' d hd)

/-- Witness for `awaitCall_spec`: the status is null for two rounds and
carries a result on the third, so `awaitCall` returns it after three
tick-then-poll rounds. -/
theorem awaitCall_spec_witness :
    awaitCall ⟨false, "/instances/0"⟩ awaitWitnessEnv ⟨none, [(7 : Byte)]⟩ =
      (.ok ⟨[(1 : Byte), (2 : Byte), (3 : Byte)]⟩,
       awaitTrace ⟨false, "/instances/0"⟩
         ⟨encodeAwaitCanisterCallRequest ⟨none, [(7 : Byte)]⟩, none⟩ 3) := by
  obtain ⟨h1, -, -⟩ := awaitCall_spec ⟨false, "/instances/0"⟩ awaitWitnessEnv
    ⟨none, [(7 : Byte)]⟩ 2 ⟨[(1 : Byte), (2 : Byte), (3 : Byte)]⟩
    rfl (by decide)
    (fun d hd => by interval_cases d <;> rfl)
    (by rfl)
  exact h1

end PicJs
